import Mathlib

/-!
Shallow embedding of the DHT11 sensor logger
(`src/rpi0w-bookworm-dht11.py`, class `DHT11SensorLogger`).

Python floats are modelled as rationals; `round(x, 1)` is modelled by
rounding to tenths with ties to even, as Python's `round` behaves.
The CSV file is modelled as the list of rows handed to / produced by the
`csv` library (one list of cell strings per row); the JSON file as the
deserialized list of readings, `none` while the file does not exist yet.
The sensor driver (`adafruit_dht`) is external: each poll is an abstract
driver response.  The polling loop `run` is modelled as a step function
over a list of per-cycle events.
-/

namespace DHT11Logger

/-- Rounding to the nearest integer with ties to even, as Python's
builtin `round` behaves on exact halves. -/
def roundHalfEven (q : ℚ) : ℤ :=
  let n := ⌊q⌋
  let r := q - n
  if r < 1/2 then n
  else if 1/2 < r then n + 1
  else if n % 2 = 0 then n else n + 1

/-- Python `round(x, 1)`: round to one decimal place. -/
def round1 (q : ℚ) : ℚ := (roundHalfEven (10 * q) : ℚ) / 10

/-- `q` has at most one decimal digit (an exact number of tenths). -/
def isTenth (q : ℚ) : Prop := ∃ k : ℤ, q = (k : ℚ) / 10

/-- One successful sensor reading, as assembled by `read_sensor`
(the dict with keys `timestamp`, `temperature_c`, `temperature_f`,
`humidity_percent`). -/
structure Reading where
  timestamp : String
  temperature_c : ℚ
  temperature_f : ℚ
  humidity_percent : ℚ
deriving Repr, DecidableEq

/-- All numeric fields of the reading are exact tenths, as every value
recorded by `read_sensor` is (each is a `round(x, 1)` result). -/
def tenthReading (r : Reading) : Prop :=
  isTenth r.temperature_c ∧ isTenth r.temperature_f ∧ isTenth r.humidity_percent

/-- One response of the external DHT11 driver to a poll: the pair
`(sensor.temperature, sensor.humidity)` (each possibly `None`), a
`RuntimeError` (transient bit-timing miss), or any other exception. -/
inductive DriverResponse where
  | value (temperature : Option ℚ) (humidity : Option ℚ)
  | runtimeError
  | unexpectedError
deriving Repr, DecidableEq

/-- `DHT11SensorLogger.read_sensor`: returns the data dict on a complete
reading, `None` when either value is missing or any exception was raised.
`now` stands for `datetime.now().isoformat()`. -/
def read_sensor (now : String) : DriverResponse → Option Reading
  | .value (some t) (some h) =>
      some { timestamp := now
             temperature_c := round1 t
             temperature_f := round1 (t * 9 / 5 + 32)
             humidity_percent := round1 h }
  | .value _ _ => none
  | .runtimeError => none
  | .unexpectedError => none

/-- The character for a decimal digit `d < 10`. -/
def digitChar (d : ℕ) : Char := Char.ofNat (48 + d)

/-- Little-endian decimal digits of `n`, with explicit fuel so that the
definition is structurally recursive. -/
def digitsRevAux : ℕ → ℕ → List ℕ
  | 0, _ => []
  | _ + 1, 0 => []
  | fuel + 1, n + 1 => ((n + 1) % 10) :: digitsRevAux fuel ((n + 1) / 10)

/-- Little-endian decimal digits of `n` (empty for `0`). -/
def digitsRev (n : ℕ) : List ℕ := digitsRevAux n n

/-- The decimal digit characters of a natural number, as Python prints it. -/
def natChars (n : ℕ) : List Char :=
  if n = 0 then ['0'] else (digitsRev n).reverse.map digitChar

/-- Python `str()` of a float that holds exactly `k/10`: optional sign,
integer part, `'.'`, and the tenths digit.  Every value this program
writes to a CSV cell is a `round(x, 1)` result, so this covers them. -/
def tenthsStr (k : ℤ) : String :=
  ⟨(if k < 0 then ['-'] else []) ++ natChars (k.natAbs / 10) ++ '.' :: [digitChar (k.natAbs % 10)]⟩

/-- The CSV cell text for a recorded value `q` (an exact tenth). -/
def ratCell (q : ℚ) : String := tenthsStr (10 * q).num

/-- The header row written by `_init_csv_file`. -/
def csvHeader : List String := ["timestamp", "temperature_c", "temperature_f", "humidity_percent"]

/-- The CSV row written for one reading by `save_to_csv`. -/
def csvRow (r : Reading) : List String :=
  [r.timestamp, ratCell r.temperature_c, ratCell r.temperature_f, ratCell r.humidity_percent]

/-- `DHT11SensorLogger._init_csv_file`: a fresh file holding the header row. -/
def init_csv_file : List (List String) := [csvHeader]

/-- `DHT11SensorLogger.save_to_csv`: append one data row to the file. -/
def save_to_csv (file : List (List String)) (r : Reading) : List (List String) :=
  file ++ [csvRow r]

/-- The CSV file after the given successful readings were appended in order. -/
def csvAfter (rs : List Reading) : List (List String) :=
  rs.foldl save_to_csv init_csv_file

/-- `DHT11SensorLogger.save_to_json`: read the whole file if it exists
(else start from `[]`), append one object, rewrite the whole file. -/
def save_to_json (file : Option (List Reading)) (r : Reading) : Option (List Reading) :=
  some (file.getD [] ++ [r])

/-- The JSON file after the given successful readings were appended in
order, starting from a not-yet-existing file. -/
def jsonAfter (rs : List Reading) : Option (List Reading) :=
  rs.foldl save_to_json none

/-- The numeric value of one decimal digit character. -/
def digitVal (c : Char) : Option ℕ :=
  if c.isDigit then some (c.toNat - 48) else none

/-- The numeric values of a run of decimal digit characters. -/
def digitsVal : List Char → Option (List ℕ)
  | [] => some []
  | c :: cs =>
    match digitVal c, digitsVal cs with
    | some d, some ds => some (d :: ds)
    | _, _ => none

/-- Python `float()` on an unsigned decimal literal
(digits, optionally a point and more digits). -/
def parseUnsigned (cs : List Char) : Option ℚ :=
  let ip := cs.takeWhile (fun c => c != '.')
  let rest := cs.dropWhile (fun c => c != '.')
  match digitsVal ip, rest with
  | some ds, [] =>
      if ip.isEmpty then none else some ((Nat.ofDigits 10 ds.reverse : ℕ) : ℚ)
  | some ds, _ :: frac =>
      match digitsVal frac with
      | some fs =>
          if ip.isEmpty && frac.isEmpty then none
          else some (((Nat.ofDigits 10 ds.reverse : ℕ) : ℚ)
                      + ((Nat.ofDigits 10 fs.reverse : ℕ) : ℚ) / 10 ^ frac.length)
      | none => none
  | none, _ => none

/-- Python `float()` restricted to the plain decimal strings this program
writes (optional `'-'`, digits, optional point); exact, no binary error. -/
def pyFloat (s : String) : Option ℚ :=
  match s.data with
  | [] => none
  | c :: cs => if c = '-' then (parseUnsigned cs).map (fun q => -q) else parseUnsigned (c :: cs)

/-- The round-trip reader of one CSV data row stated by the spec: the
timestamp cell as written and each numeric cell read back with `float()`,
the way `get_statistics` reads its cells. -/
def readingOfRow (row : List String) : Option Reading :=
  match row with
  | [ts, c, f, h] =>
    match pyFloat c, pyFloat f, pyFloat h with
    | some cv, some fv, some hv =>
        some { timestamp := ts, temperature_c := cv, temperature_f := fv, humidity_percent := hv }
    | _, _, _ => none
  | _ => none

/-- The statistics dict returned by `get_statistics`. -/
structure Stats where
  readings_count : ℕ
  temp_min : ℚ
  temp_max : ℚ
  temp_avg : ℚ
  hum_min : ℚ
  hum_max : ℚ
  hum_avg : ℚ
deriving Repr, DecidableEq

/-- Python `min` over a list (the empty case never arises:
`get_statistics` only reduces nonempty lists). -/
def listMin : List ℚ → ℚ
  | [] => 0
  | x :: xs => xs.foldl min x

/-- Python `max` over a list (the empty case never arises). -/
def listMax : List ℚ → ℚ
  | [] => 0
  | x :: xs => xs.foldl max x

/-- The `temperature_c` and `humidity_percent` cells of one data row, as
`get_statistics` extracts them (`float(row[...])`); `none` models the
exception on a malformed row. -/
def rowTempHum (row : List String) : Option (ℚ × ℚ) :=
  match row with
  | [_, c, _, h] =>
    match pyFloat c, pyFloat h with
    | some cv, some hv => some (cv, hv)
    | _, _ => none
  | _ => none

/-- The `data_points` list built by `get_statistics`; `none` when some
row raises (the surrounding `except` then returns `None`). -/
def rowsTempHum : List (List String) → Option (List (ℚ × ℚ))
  | [] => some []
  | row :: rows =>
    match rowTempHum row, rowsTempHum rows with
    | some p, some ps => some (p :: ps)
    | _, _ => none

/-- `DHT11SensorLogger.get_statistics`: scan the CSV file (header row
first), parse each data row, and return count/min/max/average of the
temperature and humidity columns; `None` on no data or on an exception. -/
def get_statistics (file : List (List String)) : Option Stats :=
  match file with
  | [] => none
  | _ :: rows =>
    match rowsTempHum rows with
    | none => none
    | some pts =>
      match pts with
      | [] => none
      | _ :: _ =>
        let temps := pts.map Prod.fst
        let hums := pts.map Prod.snd
        some { readings_count := pts.length
               temp_min := listMin temps
               temp_max := listMax temps
               temp_avg := temps.sum / (temps.length : ℚ)
               hum_min := listMin hums
               hum_max := listMax hums
               hum_avg := hums.sum / (hums.length : ℚ) }

/-- The keyword arguments of `run` that affect state. -/
structure Config where
  display : Bool
  save_csv : Bool
  save_json : Bool
deriving Repr, DecidableEq

/-- One event observed during one trip around the `while` loop of `run`:
a sensor cycle (with the driver's response, a fresh timestamp, and
whether each sink's write raises an `IOError` this cycle — those are
caught inside `save_to_csv` / `save_to_json`), a `KeyboardInterrupt`
raised in the body, any other exception in the body (caught by the
final `except`), or a SIGINT/SIGTERM delivered to `signal_handler`. -/
inductive Event where
  | cycle (now : String) (resp : DriverResponse) (csvFail : Bool) (jsonFail : Bool)
  | keyboardInterrupt
  | loopError
  | signalInterrupt
deriving Repr, DecidableEq

/-- The mutable state owned by the logger and by `run`'s locals. -/
structure LoopState where
  running : Bool
  exited : Bool
  consecutive_errors : ℕ
  readings_count : ℕ
  csvFile : List (List String)
  jsonFile : Option (List Reading)
  warnings : ℕ
  cleanups : ℕ
  sensorReleased : Bool
deriving Repr

/-- The state right after `__init__` and the local initialisations at the
top of `run`: CSV header written, JSON file absent, counters zero. -/
def initState : LoopState :=
  { running := true
    exited := false
    consecutive_errors := 0
    readings_count := 0
    csvFile := init_csv_file
    jsonFile := none
    warnings := 0
    cleanups := 0
    sensorReleased := false }

/-- `DHT11SensorLogger.cleanup`: release the sensor handle
(`self.sensor.exit()`) and log final statistics (no state change). -/
def cleanup (s : LoopState) : LoopState :=
  { s with cleanups := s.cleanups + 1, sensorReleased := true }

/-- `DHT11SensorLogger.signal_handler`: set `running` to `False`, run
`cleanup`, then `sys.exit(0)`. -/
def signal_handler (s : LoopState) : LoopState :=
  let s1 := { s with running := false }
  let s2 := cleanup s1
  { s2 with exited := true }

/-- `max_consecutive_errors` in `run`. -/
def max_consecutive_errors : ℕ := 10

/-- One trip around the body of the `while` loop of `run` (for a `cycle`
event), or the handling of an interrupt/exception.  On a complete
reading the counters reset and each enabled sink whose write does not
raise gets the row appended; the `% 10` statistics logging reads the CSV
but changes no state.  On a failed reading the consecutive-failure
counter increments and is reset (with a warning) at the threshold. -/
def step (cfg : Config) (s : LoopState) : Event → LoopState
  | .cycle now resp csvFail jsonFail =>
    match read_sensor now resp with
    | some data =>
      let s1 := { s with readings_count := s.readings_count + 1, consecutive_errors := 0 }
      let s2 := if cfg.save_csv && !csvFail
                then { s1 with csvFile := save_to_csv s1.csvFile data } else s1
      if cfg.save_json && !jsonFail
      then { s2 with jsonFile := save_to_json s2.jsonFile data } else s2
    | none =>
      if s.consecutive_errors + 1 ≥ max_consecutive_errors
      then { s with consecutive_errors := 0, warnings := s.warnings + 1 }
      else { s with consecutive_errors := s.consecutive_errors + 1 }
  | .keyboardInterrupt => { s with running := false }
  | .loopError => s
  | .signalInterrupt => signal_handler s

/-- `DHT11SensorLogger.run`: the `while self.running` loop, processing
one event per trip; stops iterating once `running` is false or
`sys.exit` has unwound. -/
def run (cfg : Config) : LoopState → List Event → LoopState
  | s, [] => s
  | s, e :: es => if s.running && !s.exited then run cfg (step cfg s e) es else s

/-- The event is a poll whose read produced no reading (a transient
failure: `RuntimeError`, a `None` value, or another caught exception). -/
def failedCycle : Event → Prop
  | .cycle now resp _ _ => read_sensor now resp = none
  | _ => False

/-- The three readings of the spec's statistics example: temperatures
20.0, 22.0, 24.0 °C (humidities 50.0, 55.0, 60.0). -/
def c8Readings : List Reading :=
  [ { timestamp := "2025-01-01T00:00:00", temperature_c := 20, temperature_f := 68, humidity_percent := 50 },
    { timestamp := "2025-01-01T00:00:02", temperature_c := 22, temperature_f := 716/10, humidity_percent := 55 },
    { timestamp := "2025-01-01T00:00:04", temperature_c := 24, temperature_f := 752/10, humidity_percent := 60 } ]

/-! ### Rounding lemmas -/

lemma roundHalfEven_of_floor_lt {q : ℚ} {n : ℤ} (hn : ⌊q⌋ = n) (h : q - n < 1/2) :
    roundHalfEven q = n := by
  unfold roundHalfEven
  rw [hn]
  exact if_pos h

lemma roundHalfEven_of_floor_gt {q : ℚ} {n : ℤ} (hn : ⌊q⌋ = n) (h : 1/2 < q - n) :
    roundHalfEven q = n + 1 := by
  unfold roundHalfEven
  rw [hn]
  rw [if_neg (by linarith), if_pos h]

lemma roundHalfEven_intCast (n : ℤ) : roundHalfEven ((n : ℚ)) = n := by
  apply roundHalfEven_of_floor_lt (Int.floor_intCast n)
  norm_num

lemma isTenth_round1 (q : ℚ) : isTenth (round1 q) :=
  ⟨roundHalfEven (10 * q), rfl⟩

lemma round1_tenth {q : ℚ} (h : isTenth q) : round1 q = q := by
  obtain ⟨k, rfl⟩ := h
  unfold round1
  rw [show (10 : ℚ) * ((k : ℚ) / 10) = (k : ℚ) by field_simp, roundHalfEven_intCast]

/-! ### Decimal rendering and parsing round trip -/

lemma digitsRevAux_eq_digits (fuel : ℕ) : ∀ n, n ≤ fuel → digitsRevAux fuel n = Nat.digits 10 n := by
  induction fuel with
  | zero =>
    intro n h
    have h0 : n = 0 := Nat.le_zero.mp h
    subst h0
    rw [Nat.digits_zero]
    rfl
  | succ fuel ih =>
    intro n h
    match n with
    | 0 =>
      rw [Nat.digits_zero]
      rfl
    | m + 1 =>
      rw [digitsRevAux, Nat.digits_def' (show 1 < 10 by norm_num) (Nat.succ_pos m)]
      congr 1
      refine ih _ ?_
      have hlt : (m + 1) / 10 < m + 1 := Nat.div_lt_self (Nat.succ_pos m) (by norm_num)
      omega

lemma digitsRev_eq_digits (n : ℕ) : digitsRev n = Nat.digits 10 n :=
  digitsRevAux_eq_digits n n le_rfl

lemma digitChar_facts {d : ℕ} (h : d < 10) :
    digitVal (digitChar d) = some d ∧ (digitChar d != '.') = true ∧ digitChar d ≠ '-' := by
  interval_cases d <;> exact ⟨by decide, by decide, by decide⟩

lemma digitsVal_map_digitChar : ∀ (l : List ℕ), (∀ d ∈ l, d < 10) →
    digitsVal (l.map digitChar) = some l := by
  intro l
  induction l with
  | nil => intro _; rfl
  | cons d ds ih =>
    intro h
    have hd := (digitChar_facts (h d (List.mem_cons_self d ds))).1
    rw [List.map_cons, digitsVal, hd, ih (fun x hx => h x (List.mem_cons_of_mem _ hx))]

lemma natChars_spec (n : ℕ) : ∀ c ∈ natChars n, ∃ d, d < 10 ∧ c = digitChar d := by
  intro c hc
  rw [natChars] at hc
  by_cases h0 : n = 0
  · rw [if_pos h0, List.mem_singleton] at hc
    exact ⟨0, by norm_num, by rw [hc]; rfl⟩
  · rw [if_neg h0, List.mem_map] at hc
    obtain ⟨d, hd, rfl⟩ := hc
    refine ⟨d, ?_, rfl⟩
    rw [digitsRev_eq_digits, List.mem_reverse] at hd
    exact Nat.digits_lt_base (by norm_num) hd

lemma natChars_ne_nil (n : ℕ) : natChars n ≠ [] := by
  rw [natChars]
  by_cases h0 : n = 0
  · rw [if_pos h0]
    exact List.cons_ne_nil _ _
  · rw [if_neg h0]
    intro hmap
    have := List.map_eq_nil_iff.mp hmap
    rw [List.reverse_eq_nil_iff, digitsRev_eq_digits] at this
    exact (Nat.digits_ne_nil_iff_ne_zero.mpr h0) this

lemma digitsVal_natChars (n : ℕ) :
    ∃ ds, digitsVal (natChars n) = some ds ∧ Nat.ofDigits 10 ds.reverse = n := by
  by_cases h0 : n = 0
  · subst h0
    exact ⟨[0], by decide, by decide⟩
  · refine ⟨(digitsRev n).reverse, ?_, ?_⟩
    · rw [natChars, if_neg h0]
      apply digitsVal_map_digitChar
      intro d hd
      rw [digitsRev_eq_digits, List.mem_reverse] at hd
      exact Nat.digits_lt_base (by norm_num) hd
    · rw [List.reverse_reverse, digitsRev_eq_digits, Nat.ofDigits_digits]

lemma takeWhile_append_all {α : Type} {p : α → Bool} :
    ∀ {l l' : List α}, (∀ c ∈ l, p c = true) → (l ++ l').takeWhile p = l ++ l'.takeWhile p := by
  intro l
  induction l with
  | nil => intro l' _; rfl
  | cons c cs ih =>
    intro l' h
    rw [List.cons_append, List.takeWhile_cons, if_pos (h c (List.mem_cons_self c cs)),
      ih (fun x hx => h x (List.mem_cons_of_mem _ hx)), List.cons_append]

lemma dropWhile_append_all {α : Type} {p : α → Bool} :
    ∀ {l l' : List α}, (∀ c ∈ l, p c = true) → (l ++ l').dropWhile p = l'.dropWhile p := by
  intro l
  induction l with
  | nil => intro l' _; rfl
  | cons c cs ih =>
    intro l' h
    rw [List.cons_append, List.dropWhile_cons, if_pos (h c (List.mem_cons_self c cs)),
      ih (fun x hx => h x (List.mem_cons_of_mem _ hx))]

lemma natChars_not_dot (n : ℕ) : ∀ c ∈ natChars n, (c != '.') = true := by
  intro c hc
  obtain ⟨d, hd, rfl⟩ := natChars_spec n c hc
  exact (digitChar_facts hd).2.1

lemma parseUnsigned_tenth (a : ℕ) :
    parseUnsigned (natChars (a / 10) ++ '.' :: [digitChar (a % 10)]) = some ((a : ℚ) / 10) := by
  obtain ⟨ds, hds, hval⟩ := digitsVal_natChars (a / 10)
  have hmod : a % 10 < 10 := Nat.mod_lt a (by norm_num)
  have hfrac : digitsVal [digitChar (a % 10)] = some [a % 10] := by
    have := digitsVal_map_digitChar [a % 10] (by simpa using hmod)
    simpa using this
  have hne : (natChars (a / 10)).isEmpty = false := by
    cases hnc : natChars (a / 10) with
    | nil => exact absurd hnc (natChars_ne_nil _)
    | cons c cs => rfl
  have hip : (natChars (a / 10) ++ '.' :: [digitChar (a % 10)]).takeWhile (fun c => c != '.')
      = natChars (a / 10) := by
    rw [takeWhile_append_all (natChars_not_dot (a / 10)), List.takeWhile_cons]
    simp
  have hrest : (natChars (a / 10) ++ '.' :: [digitChar (a % 10)]).dropWhile (fun c => c != '.')
      = '.' :: [digitChar (a % 10)] := by
    rw [dropWhile_append_all (natChars_not_dot (a / 10)), List.dropWhile_cons]
    simp
  have h1 : Nat.ofDigits 10 [a % 10] = a % 10 := by
    rw [Nat.ofDigits_cons, Nat.ofDigits_nil]
    omega
  have key : ((a / 10 : ℕ) : ℚ) * 10 + ((a % 10 : ℕ) : ℚ) = (a : ℚ) := by
    exact_mod_cast congrArg (Nat.cast : ℕ → ℚ) (show a / 10 * 10 + a % 10 = a by omega)
  unfold parseUnsigned
  rw [hip, hrest]
  simp only [hds, hfrac, hne, List.reverse_singleton, List.length_singleton, h1, hval,
    Bool.false_and, Bool.false_eq_true, if_false]
  rw [Option.some_inj]
  field_simp
  linarith [key]

lemma pyFloat_tenthsStr (k : ℤ) : pyFloat (tenthsStr k) = some ((k : ℚ) / 10) := by
  have hhead : ∀ c ∈ natChars (k.natAbs / 10), c ≠ '-' := by
    intro c hc
    obtain ⟨d, hd, rfl⟩ := natChars_spec _ c hc
    exact (digitChar_facts hd).2.2
  by_cases hk : k < 0
  · have hdata : (tenthsStr k).data
        = '-' :: (natChars (k.natAbs / 10) ++ '.' :: [digitChar (k.natAbs % 10)]) := by
      rw [tenthsStr, if_pos hk]
      rfl
    simp only [pyFloat, hdata]
    rw [if_true, parseUnsigned_tenth]
    have h1 : (k.natAbs : ℤ) = -k := by omega
    have h2 : ((k.natAbs : ℕ) : ℚ) = -(k : ℚ) := by
      rw [show ((k.natAbs : ℕ) : ℚ) = ((k.natAbs : ℤ) : ℚ) from (Int.cast_natCast _).symm, h1]
      push_cast
      ring
    rw [h2]
    simp
    ring
  · have hdata : (tenthsStr k).data
        = natChars (k.natAbs / 10) ++ '.' :: [digitChar (k.natAbs % 10)] := by
      rw [tenthsStr, if_neg hk]
      rfl
    cases hnc : natChars (k.natAbs / 10) with
    | nil => exact absurd hnc (natChars_ne_nil _)
    | cons c cs =>
      have hcne : c ≠ '-' := hhead c (by rw [hnc]; exact List.mem_cons_self c cs)
      simp only [pyFloat, hdata, hnc, List.cons_append]
      rw [if_neg hcne]
      rw [← List.cons_append, ← hnc, parseUnsigned_tenth]
      have h1 : (k.natAbs : ℤ) = k := by omega
      have h2 : ((k.natAbs : ℕ) : ℚ) = (k : ℚ) := by
        rw [show ((k.natAbs : ℕ) : ℚ) = ((k.natAbs : ℤ) : ℚ) from (Int.cast_natCast _).symm, h1]
      rw [h2]

lemma ratCell_tenth {q : ℚ} (h : isTenth q) : pyFloat (ratCell q) = some q := by
  obtain ⟨k, rfl⟩ := h
  have h10 : (10 : ℚ) * ((k : ℚ) / 10) = (k : ℚ) := by
    field_simp
  rw [ratCell, h10, Rat.num_intCast, pyFloat_tenthsStr]

/-! ### CSV and JSON file structure -/

lemma foldl_save_to_csv (rs : List Reading) :
    ∀ file, rs.foldl save_to_csv file = file ++ rs.map csvRow := by
  induction rs with
  | nil => intro file; simp
  | cons r rs ih =>
    intro file
    rw [List.foldl_cons, ih, List.map_cons]
    simp [save_to_csv]

lemma csvAfter_eq (rs : List Reading) : csvAfter rs = csvHeader :: rs.map csvRow := by
  rw [csvAfter, foldl_save_to_csv]
  rfl

lemma readingOfRow_csvRow {r : Reading} (h : tenthReading r) : readingOfRow (csvRow r) = some r := by
  obtain ⟨hc, hf, hh⟩ := h
  simp only [csvRow, readingOfRow, ratCell_tenth hc, ratCell_tenth hf, ratCell_tenth hh]

lemma foldl_save_to_json (rs : List Reading) :
    ∀ l, rs.foldl save_to_json (some l) = some (l ++ rs) := by
  induction rs with
  | nil => intro l; simp
  | cons r rs ih =>
    intro l
    rw [List.foldl_cons, show save_to_json (some l) r = some (l ++ [r]) from rfl, ih]
    simp

/-! ### Statistics -/

lemma rowTempHum_csvRow {r : Reading} (h : tenthReading r) :
    rowTempHum (csvRow r) = some (r.temperature_c, r.humidity_percent) := by
  obtain ⟨hc, _, hh⟩ := h
  simp only [csvRow, rowTempHum, ratCell_tenth hc, ratCell_tenth hh]

lemma rowsTempHum_map (rs : List Reading) : (∀ r ∈ rs, tenthReading r) →
    rowsTempHum (rs.map csvRow) = some (rs.map fun r => (r.temperature_c, r.humidity_percent)) := by
  induction rs with
  | nil => intro _; rfl
  | cons r rs ih =>
    intro h
    simp only [List.map_cons, rowsTempHum,
      rowTempHum_csvRow (h r (List.mem_cons_self r rs)),
      ih (fun x hx => h x (List.mem_cons_of_mem _ hx))]

lemma get_statistics_csvAfter (rs : List Reading) (hne : rs ≠ []) (h : ∀ r ∈ rs, tenthReading r) :
    get_statistics (csvAfter rs) = some
      { readings_count := rs.length
        temp_min := listMin (rs.map Reading.temperature_c)
        temp_max := listMax (rs.map Reading.temperature_c)
        temp_avg := (rs.map Reading.temperature_c).sum / ((rs.map Reading.temperature_c).length : ℚ)
        hum_min := listMin (rs.map Reading.humidity_percent)
        hum_max := listMax (rs.map Reading.humidity_percent)
        hum_avg := (rs.map Reading.humidity_percent).sum / ((rs.map Reading.humidity_percent).length : ℚ) } := by
  cases rs with
  | nil => exact absurd rfl hne
  | cons r rs' =>
    rw [csvAfter_eq]
    simp only [get_statistics]
    rw [rowsTempHum_map _ h]
    simp only [List.map_cons]
    simp only [← List.map_cons]
    simp only [List.map_map, Function.comp_def, List.map_cons, List.length_cons, List.length_map]

/-! ### The polling loop -/

lemma run_nil (cfg : Config) (s : LoopState) : run cfg s [] = s := rfl

lemma run_cons (cfg : Config) (s : LoopState) (e : Event) (es : List Event) :
    run cfg s (e :: es) = if s.running && !s.exited then run cfg (step cfg s e) es else s := rfl

lemma run_inactive (cfg : Config) {s : LoopState} (h : (s.running && !s.exited) = false) :
    ∀ es, run cfg s es = s := by
  intro es
  cases es with
  | nil => rfl
  | cons e es =>
    rw [run_cons, h]
    simp

lemma run_append (cfg : Config) : ∀ (l1 l2 : List Event) (s : LoopState),
    run cfg s (l1 ++ l2) = run cfg (run cfg s l1) l2 := by
  intro l1
  induction l1 with
  | nil => intro l2 s; rfl
  | cons e l1 ih =>
    intro l2 s
    by_cases hact : (s.running && !s.exited) = true
    · rw [List.cons_append, run_cons, run_cons, if_pos hact, if_pos hact, ih]
    · have hf : (s.running && !s.exited) = false := by
        revert hact
        cases (s.running && !s.exited) <;> simp
      rw [List.cons_append, run_inactive cfg hf, run_inactive cfg hf, run_inactive cfg hf]

lemma step_noninterrupt (cfg : Config) (s : LoopState) :
    ∀ e, e ≠ Event.keyboardInterrupt → e ≠ Event.signalInterrupt →
    (step cfg s e).running = s.running ∧ (step cfg s e).exited = s.exited ∧
    (step cfg s e).cleanups = s.cleanups ∧ (step cfg s e).sensorReleased = s.sensorReleased := by
  intro e hkb hsig
  cases e with
  | cycle now resp cf jf =>
    cases hrs : read_sensor now resp with
    | some d =>
      simp only [step, hrs]
      split <;> split <;> simp
    | none =>
      simp only [step, hrs]
      split <;> simp
  | keyboardInterrupt => exact absurd rfl hkb
  | loopError => exact ⟨rfl, rfl, rfl, rfl⟩
  | signalInterrupt => exact absurd rfl hsig

lemma run_noninterrupt (cfg : Config) : ∀ (es : List Event) (s : LoopState),
    (∀ e ∈ es, e ≠ Event.keyboardInterrupt ∧ e ≠ Event.signalInterrupt) →
    (run cfg s es).running = s.running ∧ (run cfg s es).exited = s.exited ∧
    (run cfg s es).cleanups = s.cleanups ∧ (run cfg s es).sensorReleased = s.sensorReleased := by
  intro es
  induction es with
  | nil => intro s _; exact ⟨rfl, rfl, rfl, rfl⟩
  | cons e es ih =>
    intro s h
    by_cases hact : (s.running && !s.exited) = true
    · rw [run_cons, if_pos hact]
      obtain ⟨h1, h2, h3, h4⟩ := step_noninterrupt cfg s e
        (h e (List.mem_cons_self e es)).1 (h e (List.mem_cons_self e es)).2
      obtain ⟨g1, g2, g3, g4⟩ := ih (step cfg s e) (fun x hx => h x (List.mem_cons_of_mem _ hx))
      exact ⟨g1.trans h1, g2.trans h2, g3.trans h3, g4.trans h4⟩
    · have hf : (s.running && !s.exited) = false := by
        revert hact
        cases (s.running && !s.exited) <;> simp
      rw [run_inactive cfg hf]
      exact ⟨rfl, rfl, rfl, rfl⟩

lemma step_failed (cfg : Config) (s : LoopState) {now : String} {resp : DriverResponse}
    {cf jf : Bool} (hfail : read_sensor now resp = none) :
    step cfg s (.cycle now resp cf jf) =
      if s.consecutive_errors + 1 ≥ 10
      then { s with consecutive_errors := 0, warnings := s.warnings + 1 }
      else { s with consecutive_errors := s.consecutive_errors + 1 } := by
  simp only [step, hfail, max_consecutive_errors]

lemma run_failed (cfg : Config) : ∀ (es : List Event) (s : LoopState),
    (∀ e ∈ es, failedCycle e) → s.running = true → s.exited = false →
    s.consecutive_errors ≤ 9 → s.consecutive_errors + es.length ≤ 10 →
    (run cfg s es).running = true ∧ (run cfg s es).exited = false ∧
    (run cfg s es).warnings
      = (if s.consecutive_errors + es.length = 10 then s.warnings + 1 else s.warnings) ∧
    (run cfg s es).consecutive_errors
      = (if s.consecutive_errors + es.length = 10 then 0 else s.consecutive_errors + es.length) := by
  intro es
  induction es with
  | nil =>
    intro s _ hr he hce _
    rw [run_nil]
    simp only [List.length_nil, Nat.add_zero]
    rw [if_neg (by omega), if_neg (by omega)]
    exact ⟨hr, he, rfl, rfl⟩
  | cons e es ih =>
    intro s h hr he hce hsum
    rw [List.length_cons] at hsum
    cases e with
    | keyboardInterrupt => exact absurd (h _ (List.mem_cons_self _ _)) (by simp [failedCycle])
    | loopError => exact absurd (h _ (List.mem_cons_self _ _)) (by simp [failedCycle])
    | signalInterrupt => exact absurd (h _ (List.mem_cons_self _ _)) (by simp [failedCycle])
    | cycle now resp cf jf =>
      have hfail : read_sensor now resp = none := h _ (List.mem_cons_self _ _)
      rw [run_cons, if_pos (by rw [hr, he]; rfl), step_failed cfg s hfail]
      by_cases hc9 : s.consecutive_errors + 1 ≥ 10
      · have h9 : s.consecutive_errors = 9 := by omega
        have hlen : es = [] := List.length_eq_zero.mp (by omega)
        subst hlen
        rw [if_pos hc9, run_nil]
        refine ⟨hr, he, ?_, ?_⟩
        · rw [if_pos (by simp [h9])]
        · rw [if_pos (by simp [h9])]
      · rw [if_neg hc9]
        have hstep := ih { s with consecutive_errors := s.consecutive_errors + 1 }
          (fun x hx => h x (List.mem_cons_of_mem _ hx)) hr he (by simp; omega) (by simp; omega)
        obtain ⟨g1, g2, g3, g4⟩ := hstep
        refine ⟨g1, g2, ?_, ?_⟩
        · rw [g3]
          simp only [List.length_cons]
          by_cases hcond : s.consecutive_errors + 1 + es.length = 10
          · rw [if_pos hcond, if_pos (by omega)]
          · rw [if_neg hcond, if_neg (by omega)]
        · rw [g4]
          simp only [List.length_cons]
          by_cases hcond : s.consecutive_errors + 1 + es.length = 10
          · rw [if_pos hcond, if_pos (by omega)]
          · rw [if_neg hcond, if_neg (by omega)]
            omega

lemma step_ce_bound (cfg : Config) (s : LoopState) (e : Event)
    (h : s.consecutive_errors ≤ 9) : (step cfg s e).consecutive_errors ≤ 9 := by
  cases e with
  | cycle now resp cf jf =>
    cases hrs : read_sensor now resp with
    | some d =>
      simp only [step, hrs]
      split <;> split <;> simp
    | none =>
      simp only [step, hrs, max_consecutive_errors]
      split
      · exact Nat.zero_le 9
      · exact (by omega : s.consecutive_errors + 1 ≤ 9)
  | keyboardInterrupt => exact h
  | loopError => exact h
  | signalInterrupt => exact h

lemma run_ce_bound (cfg : Config) : ∀ (es : List Event) (s : LoopState),
    s.consecutive_errors ≤ 9 → (run cfg s es).consecutive_errors ≤ 9 := by
  intro es
  induction es with
  | nil => intro s h; exact h
  | cons e es ih =>
    intro s h
    by_cases hact : (s.running && !s.exited) = true
    · rw [run_cons, if_pos hact]
      exact ih _ (step_ce_bound cfg s e h)
    · have hf : (s.running && !s.exited) = false := by
        revert hact
        cases (s.running && !s.exited) <;> simp
      rw [run_inactive cfg hf]
      exact h

lemma signal_handler_spec (s : LoopState) :
    (signal_handler s).cleanups = s.cleanups + 1 ∧ (signal_handler s).sensorReleased = true ∧
    (signal_handler s).exited = true ∧ (signal_handler s).running = false := by
  exact ⟨rfl, rfl, rfl, rfl⟩

lemma run_pre_signal (cfg : Config) (s : LoopState) (pre rest : List Event)
    (hr : s.running = true) (he : s.exited = false)
    (hfree : ∀ e ∈ pre, e ≠ Event.keyboardInterrupt ∧ e ≠ Event.signalInterrupt) :
    run cfg s (pre ++ Event.signalInterrupt :: rest) = signal_handler (run cfg s pre) := by
  rw [run_append]
  obtain ⟨p1, p2, _, _⟩ := run_noninterrupt cfg pre s hfree
  rw [run_cons, if_pos (by rw [p1, hr, p2, he]; rfl)]
  rw [show step cfg (run cfg s pre) Event.signalInterrupt = signal_handler (run cfg s pre) from rfl]
  exact run_inactive cfg (by simp [signal_handler, cleanup]) rest

lemma round1_eval_lt {q : ℚ} {n : ℤ} (hfl : ⌊10 * q⌋ = n) (hlt : 10 * q - n < 1/2) :
    round1 q = (n : ℚ) / 10 := by
  unfold round1
  rw [roundHalfEven_of_floor_lt hfl hlt]

lemma round1_eval_gt {q : ℚ} {n : ℤ} (hfl : ⌊10 * q⌋ = n) (hgt : 1/2 < 10 * q - n) :
    round1 q = ((n : ℚ) + 1) / 10 := by
  unfold round1
  rw [roundHalfEven_of_floor_gt hfl hgt]
  push_cast
  ring

lemma c8Readings_tenth : ∀ r ∈ c8Readings, tenthReading r := by
  intro r hr
  simp only [c8Readings, List.mem_cons, List.not_mem_nil, or_false] at hr
  rcases hr with h1 | h2 | h3
  · subst h1
    exact ⟨⟨200, by norm_num⟩, ⟨680, by norm_num⟩, ⟨500, by norm_num⟩⟩
  · subst h2
    exact ⟨⟨220, by norm_num⟩, ⟨716, by norm_num⟩, ⟨550, by norm_num⟩⟩
  · subst h3
    exact ⟨⟨240, by norm_num⟩, ⟨752, by norm_num⟩, ⟨600, by norm_num⟩⟩

/-! ### Claims -/

/-- Claim C9: for every reading attempt, the produced Reading has temperature
and humidity either both present or both absent: `read_sensor` yields a
(complete) record exactly when the driver supplied both values, and yields
nothing on a transient `RuntimeError` or any other exception. -/
theorem reading_all_or_nothing (now : String) (t h : Option ℚ) :
    ((read_sensor now (.value t h)).isSome = (t.isSome && h.isSome)) ∧
    read_sensor now DriverResponse.runtimeError = none ∧
    read_sensor now DriverResponse.unexpectedError = none := by
  refine ⟨?_, rfl, rfl⟩
  cases t <;> cases h <;> rfl

/-- Claim C1: for every sequence of driver responses, transient read failures
never terminate the polling loop `run`: if no interrupt occurs among the
events then the loop is still running after all of them, and conversely the
loop can only have stopped if the events contained an interrupt. -/
theorem transient_failures_never_stop_run (cfg : Config) (s : LoopState) (events : List Event)
    (hr : s.running = true) (he : s.exited = false) :
    ((∀ e ∈ events, e ≠ Event.keyboardInterrupt ∧ e ≠ Event.signalInterrupt) →
      (run cfg s events).running = true ∧ (run cfg s events).exited = false) ∧
    ((run cfg s events).running = false ∨ (run cfg s events).exited = true →
      Event.keyboardInterrupt ∈ events ∨ Event.signalInterrupt ∈ events) := by
  constructor
  · intro h
    obtain ⟨g1, g2, _, _⟩ := run_noninterrupt cfg events s h
    exact ⟨g1.trans hr, g2.trans he⟩
  · intro hterm
    by_contra hno
    push_neg at hno
    obtain ⟨hnk, hns⟩ := hno
    have h : ∀ e ∈ events, e ≠ Event.keyboardInterrupt ∧ e ≠ Event.signalInterrupt := by
      intro e hee
      exact ⟨fun heq => hnk (heq ▸ hee), fun heq => hns (heq ▸ hee)⟩
    obtain ⟨g1, g2, _, _⟩ := run_noninterrupt cfg events s h
    rcases hterm with ht | ht
    · rw [g1, hr] at ht
      simp at ht
    · rw [g2, he] at ht
      simp at ht

/-- Witness for C1 at a concrete one-cycle transient-failure trace. -/
theorem transient_failures_never_stop_run_witness :
    ((∀ e ∈ [Event.cycle "2025-01-01T00:00:00" DriverResponse.runtimeError false false],
        e ≠ Event.keyboardInterrupt ∧ e ≠ Event.signalInterrupt) →
      (run ⟨true, true, false⟩ initState
        [Event.cycle "2025-01-01T00:00:00" DriverResponse.runtimeError false false]).running = true ∧
      (run ⟨true, true, false⟩ initState
        [Event.cycle "2025-01-01T00:00:00" DriverResponse.runtimeError false false]).exited = false) ∧
    ((run ⟨true, true, false⟩ initState
        [Event.cycle "2025-01-01T00:00:00" DriverResponse.runtimeError false false]).running = false ∨
     (run ⟨true, true, false⟩ initState
        [Event.cycle "2025-01-01T00:00:00" DriverResponse.runtimeError false false]).exited = true →
      Event.keyboardInterrupt ∈ [Event.cycle "2025-01-01T00:00:00" DriverResponse.runtimeError false false] ∨
      Event.signalInterrupt ∈ [Event.cycle "2025-01-01T00:00:00" DriverResponse.runtimeError false false]) :=
  transient_failures_never_stop_run ⟨true, true, false⟩ initState
    [Event.cycle "2025-01-01T00:00:00" DriverResponse.runtimeError false false] rfl rfl

/-- Claim C2: a run of exactly 10 consecutive failed read attempts emits
exactly one threshold warning, resets the consecutive-failure counter to 0,
and leaves the loop running; no warning is emitted before the 10th failure. -/
theorem ten_consecutive_failures_warn_once (cfg : Config) (s : LoopState) (es : List Event)
    (hfail : ∀ e ∈ es, failedCycle e) (hlen : es.length = 10)
    (hr : s.running = true) (he : s.exited = false) (hce : s.consecutive_errors = 0) :
    (run cfg s es).warnings = s.warnings + 1 ∧
    (run cfg s es).consecutive_errors = 0 ∧
    (run cfg s es).running = true ∧ (run cfg s es).exited = false ∧
    ∀ k < 10, (run cfg s (es.take k)).warnings = s.warnings := by
  obtain ⟨g1, g2, g3, g4⟩ := run_failed cfg es s hfail hr he (by omega) (by omega)
  rw [hce, hlen] at g3 g4
  norm_num at g3 g4
  refine ⟨g3, g4, g1, g2, ?_⟩
  intro k hk
  have hsub : ∀ e ∈ es.take k, failedCycle e := fun e hee => hfail e (List.take_subset k es hee)
  have htlen : (es.take k).length = k := by
    rw [List.length_take, hlen]
    omega
  obtain ⟨_, _, g3t, _⟩ := run_failed cfg (es.take k) s hsub hr he (by omega)
    (by rw [htlen]; omega)
  rw [g3t, hce, htlen, if_neg (by omega)]

/-- Witness for C2 at the concrete trace of 10 transient failures. -/
theorem ten_consecutive_failures_warn_once_witness :
    (run ⟨true, true, false⟩ initState
      (List.replicate 10 (Event.cycle "t" DriverResponse.runtimeError false false))).warnings
        = initState.warnings + 1 ∧
    (run ⟨true, true, false⟩ initState
      (List.replicate 10 (Event.cycle "t" DriverResponse.runtimeError false false))).consecutive_errors = 0 ∧
    (run ⟨true, true, false⟩ initState
      (List.replicate 10 (Event.cycle "t" DriverResponse.runtimeError false false))).running = true ∧
    (run ⟨true, true, false⟩ initState
      (List.replicate 10 (Event.cycle "t" DriverResponse.runtimeError false false))).exited = false ∧
    ∀ k < 10, (run ⟨true, true, false⟩ initState
      ((List.replicate 10 (Event.cycle "t" DriverResponse.runtimeError false false)).take k)).warnings
        = initState.warnings :=
  ten_consecutive_failures_warn_once ⟨true, true, false⟩ initState
    (List.replicate 10 (Event.cycle "t" DriverResponse.runtimeError false false))
    (fun e hee => by rw [List.eq_of_mem_replicate hee]; exact rfl)
    (by simp) rfl rfl rfl

/-- Claim C10: at the start of every loop iteration the consecutive-failure
counter is between 0 and 9; each sensor cycle either resets it to 0 (on
success or at the threshold) or increments it by 1 while staying below 10. -/
theorem consecutive_error_counter_bounded (cfg : Config) (events : List Event) (n : ℕ) :
    (run cfg initState (events.take n)).consecutive_errors ≤ 9 ∧
    (∀ (s : LoopState) (now : String) (resp : DriverResponse) (cf jf : Bool),
      s.consecutive_errors ≤ 9 →
      ((step cfg s (.cycle now resp cf jf)).consecutive_errors = 0 ∨
       ((step cfg s (.cycle now resp cf jf)).consecutive_errors = s.consecutive_errors + 1 ∧
        s.consecutive_errors + 1 ≤ 9))) := by
  constructor
  · exact run_ce_bound cfg (events.take n) initState (Nat.zero_le 9)
  · intro s now resp cf jf hce
    cases hrs : read_sensor now resp with
    | some d =>
      left
      simp only [step, hrs]
      split <;> split <;> simp
    | none =>
      by_cases h9 : s.consecutive_errors + 1 ≥ 10
      · left
        simp only [step, hrs, max_consecutive_errors]
        rw [if_pos h9]
      · right
        refine ⟨?_, by omega⟩
        simp only [step, hrs, max_consecutive_errors]
        rw [if_neg h9]

/-- Witness for C10 at a concrete trace and a concrete cycle. -/
theorem consecutive_error_counter_bounded_witness :
    (run ⟨true, true, false⟩ initState ([Event.loopError].take 1)).consecutive_errors ≤ 9 ∧
    ((step ⟨true, true, false⟩ initState
        (.cycle "t" DriverResponse.runtimeError false false)).consecutive_errors = 0 ∨
     ((step ⟨true, true, false⟩ initState
        (.cycle "t" DriverResponse.runtimeError false false)).consecutive_errors
          = initState.consecutive_errors + 1 ∧
      initState.consecutive_errors + 1 ≤ 9)) :=
  ⟨(consecutive_error_counter_bounded ⟨true, true, false⟩ [Event.loopError] 1).1,
   (consecutive_error_counter_bounded ⟨true, true, false⟩ [] 0).2 initState "t"
      DriverResponse.runtimeError false false (Nat.zero_le 9)⟩

/-- Claim C6: a SIGINT/SIGTERM delivered at any point of the cycle (after any
interrupt-free prefix of events) makes the cleanup sequence run exactly once
— not zero times and not twice, whatever events follow — and the sensor
handle is released in every state in which the process has exited. -/
theorem interrupt_cleanup_exactly_once (cfg : Config) (s : LoopState) (pre post : List Event)
    (hr : s.running = true) (he : s.exited = false) (hc : s.cleanups = 0)
    (hfree : ∀ e ∈ pre, e ≠ Event.keyboardInterrupt ∧ e ≠ Event.signalInterrupt) :
    ((run cfg s (pre ++ Event.signalInterrupt :: post)).cleanups = 1 ∧
     (run cfg s (pre ++ Event.signalInterrupt :: post)).sensorReleased = true ∧
     (run cfg s (pre ++ Event.signalInterrupt :: post)).exited = true) ∧
    ∀ n, (run cfg s ((pre ++ Event.signalInterrupt :: post).take n)).exited = true →
      (run cfg s ((pre ++ Event.signalInterrupt :: post).take n)).sensorReleased = true ∧
      (run cfg s ((pre ++ Event.signalInterrupt :: post).take n)).cleanups = 1 := by
  obtain ⟨p1, p2, p3, p4⟩ := run_noninterrupt cfg pre s hfree
  constructor
  · rw [run_pre_signal cfg s pre post hr he hfree]
    refine ⟨?_, rfl, rfl⟩
    show (run cfg s pre).cleanups + 1 = 1
    rw [p3, hc]
  · intro n hex
    by_cases hn : n ≤ pre.length
    · have htake : (pre ++ Event.signalInterrupt :: post).take n = pre.take n :=
        List.take_append_of_le_length hn
      rw [htake] at hex
      have hsub : ∀ e ∈ pre.take n, e ≠ Event.keyboardInterrupt ∧ e ≠ Event.signalInterrupt :=
        fun e hee => hfree e (List.take_subset n pre hee)
      obtain ⟨_, q2, _, _⟩ := run_noninterrupt cfg (pre.take n) s hsub
      rw [q2, he] at hex
      simp at hex
    · push_neg at hn
      obtain ⟨m, hm⟩ : ∃ m, n - pre.length = m + 1 := ⟨n - pre.length - 1, by omega⟩
      have htake : (pre ++ Event.signalInterrupt :: post).take n
          = pre ++ Event.signalInterrupt :: post.take m := by
        rw [List.take_append_eq_append_take, List.take_of_length_le (by omega), hm,
          List.take_succ_cons]
      rw [htake, run_pre_signal cfg s pre _ hr he hfree]
      refine ⟨rfl, ?_⟩
      show (run cfg s pre).cleanups + 1 = 1
      rw [p3, hc]

/-- Witness for C6: the signal arrives after one transient-failure cycle. -/
theorem interrupt_cleanup_exactly_once_witness :
    ((run ⟨true, true, false⟩ initState
        ([Event.cycle "t" DriverResponse.runtimeError false false]
          ++ Event.signalInterrupt :: [Event.loopError])).cleanups = 1 ∧
     (run ⟨true, true, false⟩ initState
        ([Event.cycle "t" DriverResponse.runtimeError false false]
          ++ Event.signalInterrupt :: [Event.loopError])).sensorReleased = true ∧
     (run ⟨true, true, false⟩ initState
        ([Event.cycle "t" DriverResponse.runtimeError false false]
          ++ Event.signalInterrupt :: [Event.loopError])).exited = true) ∧
    ∀ n, (run ⟨true, true, false⟩ initState
        (([Event.cycle "t" DriverResponse.runtimeError false false]
          ++ Event.signalInterrupt :: [Event.loopError]).take n)).exited = true →
      (run ⟨true, true, false⟩ initState
        (([Event.cycle "t" DriverResponse.runtimeError false false]
          ++ Event.signalInterrupt :: [Event.loopError]).take n)).sensorReleased = true ∧
      (run ⟨true, true, false⟩ initState
        (([Event.cycle "t" DriverResponse.runtimeError false false]
          ++ Event.signalInterrupt :: [Event.loopError]).take n)).cleanups = 1 :=
  interrupt_cleanup_exactly_once ⟨true, true, false⟩ initState
    [Event.cycle "t" DriverResponse.runtimeError false false] [Event.loopError]
    rfl rfl rfl (by decide)

/-- Claim C7: an IOFailure inside one sink's append is contained there: with
both sinks enabled, a cycle whose CSV write fails still appends the same
reading to the JSON file (and vice versa), and the loop keeps running. -/
theorem sink_failure_isolated (cfg : Config) (s : LoopState) (now : String)
    (resp : DriverResponse) (cf jf : Bool) (data : Reading)
    (hread : read_sensor now resp = some data)
    (hcsv : cfg.save_csv = true) (hjson : cfg.save_json = true) :
    (step cfg s (.cycle now resp cf jf)).running = s.running ∧
    (step cfg s (.cycle now resp cf jf)).exited = s.exited ∧
    (jf = false → (step cfg s (.cycle now resp cf jf)).jsonFile = save_to_json s.jsonFile data) ∧
    (cf = false → (step cfg s (.cycle now resp cf jf)).csvFile = save_to_csv s.csvFile data) := by
  cases cfg with
  | mk d sc sj =>
    have hsc : sc = true := hcsv
    have hsj : sj = true := hjson
    subst hsc
    subst hsj
    cases cf <;> cases jf <;> simp only [step, hread] <;>
      exact ⟨rfl, rfl, fun h => by first | rfl | exact absurd h (by decide),
             fun h => by first | rfl | exact absurd h (by decide)⟩

/-- Witness for C7: a concrete cycle with the CSV sink failing and the JSON
sink succeeding. -/
theorem sink_failure_isolated_witness :
    (step ⟨true, true, true⟩ initState
      (.cycle "t" (.value (some 20) (some 50)) true false)).running = initState.running ∧
    (step ⟨true, true, true⟩ initState
      (.cycle "t" (.value (some 20) (some 50)) true false)).exited = initState.exited ∧
    (false = false → (step ⟨true, true, true⟩ initState
      (.cycle "t" (.value (some 20) (some 50)) true false)).jsonFile
        = save_to_json initState.jsonFile
            { timestamp := "t", temperature_c := round1 20,
              temperature_f := round1 (20 * 9 / 5 + 32), humidity_percent := round1 50 }) ∧
    (true = false → (step ⟨true, true, true⟩ initState
      (.cycle "t" (.value (some 20) (some 50)) true false)).csvFile
        = save_to_csv initState.csvFile
            { timestamp := "t", temperature_c := round1 20,
              temperature_f := round1 (20 * 9 / 5 + 32), humidity_percent := round1 50 }) :=
  sink_failure_isolated ⟨true, true, true⟩ initState "t" (.value (some 20) (some 50))
    true false
    { timestamp := "t", temperature_c := round1 20,
      temperature_f := round1 (20 * 9 / 5 + 32), humidity_percent := round1 50 }
    rfl rfl rfl

/-- Claim C3 as stated is false: `read_sensor` derives Fahrenheit from the
raw driver value before Celsius is rounded, so at raw 0.149 °C the recorded
`temperature_f` (32.3) differs from `round1(temperature_c * 9/5 + 32)`
(32.2) and sits more than 0.1 away from `temperature_c * 9/5 + 32`. -/
theorem fahrenheit_not_from_rounded_celsius :
    read_sensor "2025-01-01T00:00:00" (.value (some (149/1000)) (some 50)) =
      some { timestamp := "2025-01-01T00:00:00", temperature_c := 1/10,
             temperature_f := 323/10, humidity_percent := 50 } ∧
    round1 ((1/10 : ℚ) * 9 / 5 + 32) = 161/5 ∧
    (323/10 : ℚ) ≠ 161/5 ∧
    |(323/10 : ℚ) - ((1/10 : ℚ) * 9 / 5 + 32)| > 1/10 := by
  have hfl1 : ⌊(10 : ℚ) * (149/1000)⌋ = 1 := by
    rw [show (10 : ℚ) * (149/1000) = 149/100 by norm_num, Int.floor_eq_iff]
    constructor <;> norm_num
  have e1 : round1 (149/1000 : ℚ) = 1/10 := by
    rw [round1_eval_lt hfl1 (by norm_num)]
    norm_num
  have hfl2 : ⌊(10 : ℚ) * ((149/1000) * 9 / 5 + 32)⌋ = 322 := by
    rw [show (10 : ℚ) * ((149/1000) * 9 / 5 + 32) = 161341/500 by norm_num, Int.floor_eq_iff]
    constructor <;> norm_num
  have e2 : round1 ((149/1000 : ℚ) * 9 / 5 + 32) = 323/10 := by
    rw [round1_eval_gt hfl2 (by norm_num)]
    norm_num
  have e3 : round1 (50 : ℚ) = 50 := round1_tenth ⟨500, by norm_num⟩
  have hfl4 : ⌊(10 : ℚ) * ((1/10) * 9 / 5 + 32)⌋ = 321 := by
    rw [show (10 : ℚ) * ((1/10) * 9 / 5 + 32) = 1609/5 by norm_num, Int.floor_eq_iff]
    constructor <;> norm_num
  have e4 : round1 ((1/10 : ℚ) * 9 / 5 + 32) = 161/5 := by
    rw [round1_eval_gt hfl4 (by norm_num)]
    norm_num
  refine ⟨?_, e4, by norm_num, ?_⟩
  · simp only [read_sensor]
    rw [e1, e2, e3]
  · rw [abs_of_pos (by norm_num)]
    norm_num

/-- Claim C3 (amended): the recorded `temperature_f` is `round1` of the raw
Celsius value converted to Fahrenheit (`round1(raw * 9/5 + 32)`), not of the
already-rounded `temperature_c`; when the raw Celsius value is an exact
tenth — as the DHT11 driver reports — the two agree, so `temperature_f =
round1(temperature_c * 9/5 + 32)` holds; all fields are always present
together in a successful Reading. -/
theorem fahrenheit_from_raw_celsius (ts : String) (t h : ℚ) :
    read_sensor ts (.value (some t) (some h)) =
      some { timestamp := ts, temperature_c := round1 t,
             temperature_f := round1 (t * 9 / 5 + 32), humidity_percent := round1 h } ∧
    (isTenth t → round1 (t * 9 / 5 + 32) = round1 (round1 t * 9 / 5 + 32)) := by
  refine ⟨rfl, fun ht => ?_⟩
  rw [round1_tenth ht]

/-- Witness for the amended C3 at raw values 21 °C, 50 %. -/
theorem fahrenheit_from_raw_celsius_witness :
    read_sensor "t" (.value (some 21) (some 50)) =
      some { timestamp := "t", temperature_c := round1 21,
             temperature_f := round1 (21 * 9 / 5 + 32), humidity_percent := round1 50 } ∧
    round1 ((21 : ℚ) * 9 / 5 + 32) = round1 (round1 21 * 9 / 5 + 32) :=
  ⟨(fahrenheit_from_raw_celsius "t" 21 50).1,
   (fahrenheit_from_raw_celsius "t" 21 50).2 ⟨210, by norm_num⟩⟩

/-- Claim C4: after initializing the CSV file and appending N successful
readings, the file has exactly N+1 rows (header first, one data row per
reading in order), and parsing any data row back yields the original
Reading exactly. -/
theorem csv_roundtrip (rs : List Reading) (h : ∀ r ∈ rs, tenthReading r) :
    (csvAfter rs).length = rs.length + 1 ∧
    csvAfter rs = csvHeader :: rs.map csvRow ∧
    (∀ r ∈ rs, readingOfRow (csvRow r) = some r) ∧
    ∀ now resp r, read_sensor now resp = some r → tenthReading r := by
  refine ⟨?_, csvAfter_eq rs, fun r hr => readingOfRow_csvRow (h r hr), ?_⟩
  · rw [csvAfter_eq]
    simp
  · intro now resp r hrd
    cases resp with
    | value t hm =>
      cases t with
      | none => simp [read_sensor] at hrd
      | some tv =>
        cases hm with
        | none => simp [read_sensor] at hrd
        | some hv =>
          simp only [read_sensor, Option.some_inj] at hrd
          subst hrd
          exact ⟨isTenth_round1 _, isTenth_round1 _, isTenth_round1 _⟩
    | runtimeError => simp [read_sensor] at hrd
    | unexpectedError => simp [read_sensor] at hrd

/-- Witness for C4 at a concrete one-reading run. -/
theorem csv_roundtrip_witness :
    (csvAfter [{ timestamp := "2025-01-01T00:00:00", temperature_c := 20,
                 temperature_f := 68, humidity_percent := 50 }]).length = 2 ∧
    csvAfter [{ timestamp := "2025-01-01T00:00:00", temperature_c := 20,
                temperature_f := 68, humidity_percent := 50 }]
      = csvHeader :: [{ timestamp := "2025-01-01T00:00:00", temperature_c := (20 : ℚ),
                        temperature_f := 68, humidity_percent := 50 }].map csvRow ∧
    (∀ r ∈ [{ timestamp := "2025-01-01T00:00:00", temperature_c := (20 : ℚ),
              temperature_f := 68, humidity_percent := 50 }],
      readingOfRow (csvRow r) = some r) ∧
    ∀ now resp r, read_sensor now resp = some r → tenthReading r :=
  csv_roundtrip [{ timestamp := "2025-01-01T00:00:00", temperature_c := 20,
                   temperature_f := 68, humidity_percent := 50 }]
    (by
      intro r hr
      rw [List.mem_singleton] at hr
      subst hr
      exact ⟨⟨200, by norm_num⟩, ⟨680, by norm_num⟩, ⟨500, by norm_num⟩⟩)

/-- Claim C5: N successful readings appended through the read-whole-file,
append-one, rewrite-whole-file JSON sink leave a file that deserializes to
exactly those N readings in chronological order. -/
theorem json_appends_in_order (rs : List Reading) (hne : rs ≠ []) :
    jsonAfter rs = some rs ∧
    ∀ file r, save_to_json file r = some (file.getD [] ++ [r]) := by
  refine ⟨?_, fun file r => rfl⟩
  cases rs with
  | nil => exact absurd rfl hne
  | cons r rs' =>
    rw [jsonAfter, List.foldl_cons, show save_to_json none r = some [r] from rfl,
      foldl_save_to_json]
    simp

/-- Witness for C5 at a concrete one-reading run. -/
theorem json_appends_in_order_witness :
    jsonAfter [{ timestamp := "2025-01-01T00:00:00", temperature_c := 20,
                 temperature_f := 68, humidity_percent := 50 }]
      = some [{ timestamp := "2025-01-01T00:00:00", temperature_c := (20 : ℚ),
                temperature_f := 68, humidity_percent := 50 }] ∧
    ∀ file r, save_to_json file r = some (file.getD [] ++ [r]) :=
  json_appends_in_order [{ timestamp := "2025-01-01T00:00:00", temperature_c := 20,
                           temperature_f := 68, humidity_percent := 50 }]
    (List.cons_ne_nil _ _)

/-- Claim C8: `get_statistics` on the CSV of readings with temperatures
20.0, 22.0, 24.0 °C returns min 20.0, max 24.0, average 22.0; in general it
returns the count, min, max and arithmetic mean of the temperature and
humidity columns of the run's CSV. -/
theorem statistics_min_max_avg :
    ((get_statistics (csvAfter c8Readings)).map
        (fun st => (st.readings_count, st.temp_min, st.temp_max, st.temp_avg))
      = some (3, 20, 24, 22)) ∧
    (∀ rs : List Reading, rs ≠ [] → (∀ r ∈ rs, tenthReading r) →
      get_statistics (csvAfter rs) = some
        { readings_count := rs.length
          temp_min := listMin (rs.map Reading.temperature_c)
          temp_max := listMax (rs.map Reading.temperature_c)
          temp_avg := (rs.map Reading.temperature_c).sum
            / ((rs.map Reading.temperature_c).length : ℚ)
          hum_min := listMin (rs.map Reading.humidity_percent)
          hum_max := listMax (rs.map Reading.humidity_percent)
          hum_avg := (rs.map Reading.humidity_percent).sum
            / ((rs.map Reading.humidity_percent).length : ℚ) }) := by
  constructor
  · rw [get_statistics_csvAfter c8Readings (by simp [c8Readings]) c8Readings_tenth]
    norm_num [c8Readings, listMin, listMax, min_def, max_def]
  · intro rs hne h
    exact get_statistics_csvAfter rs hne h

/-- Witness for C8's general clause at the concrete three-reading run. -/
theorem statistics_min_max_avg_witness :
    get_statistics (csvAfter c8Readings) = some
      { readings_count := c8Readings.length
        temp_min := listMin (c8Readings.map Reading.temperature_c)
        temp_max := listMax (c8Readings.map Reading.temperature_c)
        temp_avg := (c8Readings.map Reading.temperature_c).sum
          / ((c8Readings.map Reading.temperature_c).length : ℚ)
        hum_min := listMin (c8Readings.map Reading.humidity_percent)
        hum_max := listMax (c8Readings.map Reading.humidity_percent)
        hum_avg := (c8Readings.map Reading.humidity_percent).sum
          / ((c8Readings.map Reading.humidity_percent).length : ℚ) } :=
  statistics_min_max_avg.2 c8Readings (by simp [c8Readings]) c8Readings_tenth

end DHT11Logger
